import Mathlib

/-!
Verification of the semantic-retrieval and tool-execution core of the `ainp`
repository (AWS Amplify functions written in Python) against its
natural-language specification.

The Python sources are shallowly embedded:
* Python strings are modelled as `String` / `List Char` (Python slices and
  `len` act on code points, as `List Char` operations do);
* floats (embedding coordinates, faiss distances) are modelled as `ℚ`;
* AWS collaborators (the Bedrock embedding model, the S3-backed faiss store,
  DynamoDB-backed tool specs, pip) are modelled as explicit environment
  parameters, one abstract outcome per external call;
* Python dictionaries whose keys matter are modelled as association lists,
  and dictionaries with a statically known field set as structures (a read
  of a missing key with `.get(k, default)` becomes a total field);
* the `while` loop of `split_text` is modelled with explicit fuel, `none`
  meaning divergence: one fuel unit is one loop iteration, and
  `text.length + 2` units are enough because the cursor of a terminating
  run never revisits a value (the loop body is a function of the cursor).
-/

namespace Ainp

set_option maxRecDepth 1000000

/-! ### Python string primitives -/

/-- Python `str.isspace` for the ASCII whitespace characters that occur in
this code base (`str.strip()` with no argument strips exactly the
whitespace class; we model the ASCII part). -/
def isPySpace (c : Char) : Bool :=
  c = ' ' || c = '\t' || c = '\n' || c = '\r' || c = Char.ofNat 11 || c = Char.ofNat 12

/-- Python `str.strip()` on a list of characters: drop leading and trailing
whitespace. -/
def stripChars (xs : List Char) : List Char :=
  (xs.dropWhile isPySpace).rdropWhile isPySpace

/-- Python `str.strip()` on a `String`. -/
def pyStrip (s : String) : String :=
  String.mk (stripChars s.data)

/-- Python slice `s[:n]` on a `String`. -/
def pyTake (s : String) (n : Nat) : String :=
  String.mk (s.data.take n)

/-- Python `len` of a string (code points). -/
def pyLen (s : String) : Nat :=
  s.data.length

/-- Python `"\n".join(parts)`. -/
def joinNL : List String → String
  | [] => ""
  | [s] => s
  | s :: rest => s ++ "\n" ++ joinNL rest

/-! ### `split_text` (src/amplify/functions/embed-files/index.py, lines 61-98)

Python signature: `split_text(text, chunk_size=1000, chunk_overlap=200)`.
The source first returns `[text]` when `len(text) <= chunk_size`; otherwise
it runs a sliding-window `while` loop and finally filters out
empty-after-strip chunks. -/

/-- The backward scan of the source: for `i in range(min(chunk_size // 4,
end - start))`, the first `i` with `text[end - i].isspace()` gives
`break_point = end - i`; if none is found, `break_point` stays `end`. -/
def breakPointCalc (text : List Char) (start endPos cs : Nat) : Nat :=
  match (List.range (min (cs / 4) (endPos - start))).find?
      (fun i => ((text.get? (endPos - i)).map isPySpace).getD false) with
  | some i => endPos - i
  | none => endPos

/-- The cursor update of the source: `start = break_point - chunk_overlap;
if start < 0: start = break_point`. -/
def nextStart (bp ov : Nat) : Nat :=
  if (bp : Int) - (ov : Int) < 0 then bp else ((bp : Int) - (ov : Int)).toNat

/-- One fuel unit per iteration of the `while start < len(text)` loop.
`none` models divergence (the source loops forever when the cursor stops
advancing, e.g. for `chunk_overlap ≥ break_point - start`). -/
def splitLoop (text : List Char) (cs ov : Nat) :
    Nat → Nat → List (List Char) → Option (List (List Char))
  | 0, _, _ => none
  | fuel + 1, start, acc =>
    if start < text.length then
      if text.length ≤ start + cs then
        some (acc ++ [stripChars (text.drop start)])
      else
        splitLoop text cs ov fuel
          (nextStart (breakPointCalc text start (start + cs) cs) ov)
          (acc ++ [stripChars ((text.drop start).take
            (breakPointCalc text start (start + cs) cs - start))])
    else
      some acc

/-- `split_text` itself: the short-text fast path returns `[text]`
untrimmed; the long path runs the loop and then filters out chunks that
are empty after stripping (`if chunk.strip()`). -/
def split_text (text : List Char) (cs ov : Nat) : Option (List (List Char)) :=
  if text.length ≤ cs then
    some [text]
  else
    (splitLoop text cs ov (text.length + 2) 0 []).map
      (fun chunks => chunks.filter (fun c => !(stripChars c).isEmpty))


/-! ### EmbeddingClient

Two implementations exist in the sources:
`src/amplify/functions/chat-bedrock-tools/index.py` lines 57-86 and
`src/amplify/functions/embed-files/index.py` lines 31-58, both named
`get_embeddings`.  One Bedrock `invoke_model` call is modelled as an
environment `String → BedrockResp`: `raises` is any exception on the call
or while parsing its response, and `ok emb` is a successful response whose
parsed body yields `response_body.get("embedding", [])` equal to `emb`
(a missing key gives `ok []`). -/

/-- Outcome of one `bedrock_client.invoke_model` call, keyed by the
`inputText` actually sent. -/
inductive BedrockResp where
  | raises
  | ok (emb : List ℚ)
deriving DecidableEq

/-- `EMBEDDING_DIMENSION = 1536` in both source files. -/
def EMBEDDING_DIMENSION : Nat := 1536

/-- The `[0.0] * EMBEDDING_DIMENSION` fallback vector. -/
def zeroVec : List ℚ := List.replicate EMBEDDING_DIMENSION 0

namespace ChatBedrockTools

/-- Per-text step of the loop of `get_embeddings` (chat-bedrock-tools):
blank text never reaches Bedrock and yields the zero vector; the call is
made on `text[:8000]`; an exception, an empty embedding or an embedding of
the wrong length yields the zero vector.  (The `not isinstance(text, str)`
guard of the source is vacuous in this typed embedding.)  This definition
restates the loop body and is proved equal to it below; `get_embeddings`
itself does not use it. -/
def embedOne (env : String → BedrockResp) (text : String) : List ℚ :=
  if pyStrip text = "" then zeroVec
  else
    match env (pyTake text 8000) with
    | .raises => zeroVec
    | .ok emb =>
      if emb ≠ [] ∧ emb.length = EMBEDDING_DIMENSION then emb else zeroVec

/-- The `for text in texts` loop of `get_embeddings` (chat-bedrock-tools),
appending one vector per text. -/
def embedLoop (env : String → BedrockResp) : List String → List (List ℚ)
  | [] => []
  | text :: rest =>
    (if pyStrip text = "" then zeroVec
     else
       match env (pyTake text 8000) with
       | .raises => zeroVec
       | .ok emb =>
         if emb ≠ [] ∧ emb.length = EMBEDDING_DIMENSION then emb else zeroVec)
    :: embedLoop env rest

/-- `get_embeddings` of chat-bedrock-tools: raises `ValueError` on an empty
input list, otherwise runs the per-text loop and returns normally. -/
def get_embeddings (texts : List String) (env : String → BedrockResp) :
    Except String (List (List ℚ)) :=
  if texts = [] then Except.error ("Texts list cannot be empty")
  else Except.ok (embedLoop env texts)

end ChatBedrockTools

namespace EmbedFiles

/-- Per-text step of the loop of `get_embeddings` (embed-files): the call is
made on the whole text (no truncation, no blank check); only an exception
yields the zero vector, and a successful response is appended unchecked
(whatever its length, including `[]` for a response without an
`embedding` key). -/
def embedOne (env : String → BedrockResp) (text : String) : List ℚ :=
  match env text with
  | .raises => zeroVec
  | .ok emb => emb

/-- The `for text in texts` loop of `get_embeddings` (embed-files). -/
def embedLoop (env : String → BedrockResp) : List String → List (List ℚ)
  | [] => []
  | text :: rest =>
    (match env text with
     | .raises => zeroVec
     | .ok emb => emb) :: embedLoop env rest

/-- `get_embeddings` of embed-files: no empty-list guard, never raises. -/
def get_embeddings (texts : List String) (env : String → BedrockResp) :
    List (List ℚ) :=
  embedLoop env texts

end EmbedFiles

/-- Witness environment: every Bedrock call raises. -/
def bedrockAlwaysRaises : String → BedrockResp := fun _ => BedrockResp.raises

/-- Witness environment: every Bedrock call succeeds with the 1-dimensional
response `[1.0]` (the wrong dimension). -/
def bedrockWrongDim : String → BedrockResp := fun _ => BedrockResp.ok [1]


/-! ### RetrievalEngine (src/amplify/functions/chat-bedrock-tools/index.py)

`load_faiss_index` (lines 89-129), `search_relevant_documents` (132-178)
and `build_rag_context` (181-212).  The S3-and-faiss store is abstracted as
an environment: `db` maps a (stripped) database id to `none` when the
index cannot be loaded for any reason (missing bucket, missing blobs,
deserialization failure, metadata not list-shaped — all caught by the
source and turned into `None`) and to `some (index, metadata)` otherwise.
A faiss index is its vector count plus its `search` method; the method may
raise (`Except.error`), which the per-collection `try/except` of the
source catches and skips. -/

/-- One entry of the metadata list.  The source reads entries with
`.get("chunk_text", "")` and `.get("file_name", "Unknown")`; a dictionary
with those defaults applied is modelled as a total record. -/
structure ChunkMeta where
  chunk_text : String := ""
  file_name : String := "Unknown"
deriving DecidableEq

/-- One element of the result list of `search_relevant_documents`. -/
structure RetrievalResult where
  database_id : String
  distance : ℚ
  metadata : ChunkMeta
  chunk_text : String
  file_name : String
deriving DecidableEq

/-- A loaded faiss index: its `ntotal` and its `search` method, which
returns the zipped `(distances[0], indices[0])` pairs for a query vector
and a neighbour count, or raises. -/
structure FaissIndex where
  ntotal : Nat
  search : List ℚ → Nat → Except String (List (ℚ × Int))

/-- The ambient AWS environment of the chat-bedrock-tools handler. -/
structure ChatEnv where
  bedrock : String → BedrockResp
  db : String → Option (FaissIndex × List ChunkMeta)

/-- `load_faiss_index`: raises `ValueError` on an empty database id,
otherwise consults the store under the stripped id; every load-side
exception is caught by the source and becomes `none`. -/
def load_faiss_index (env : ChatEnv) (database_id : String) :
    Except String (Option (FaissIndex × List ChunkMeta)) :=
  if database_id = "" then Except.error ("database_id must be a non-empty string")
  else Except.ok (env.db (pyStrip database_id))

/-- The body of the `for database_id in database_ids` loop of
`search_relevant_documents`: skip a collection whose load returns nothing
or raises, whose index is empty, or whose search raises; otherwise keep
the returned pairs whose row id is inside the metadata list. -/
def searchOneDb (env : ChatEnv) (qv : List ℚ) (top_k : Nat)
    (database_id : String) : List RetrievalResult :=
  match load_faiss_index env database_id with
  | Except.error _ => []
  | Except.ok none => []
  | Except.ok (some (index, metadata)) =>
    if index.ntotal = 0 then []
    else
      match index.search qv (min top_k index.ntotal) with
      | Except.error _ => []
      | Except.ok pairs =>
        pairs.filterMap (fun (di : ℚ × Int) =>
          if (0 : Int) ≤ di.2 ∧ di.2 < (metadata.length : Int) then
            match metadata.get? di.2.toNat with
            | some m => some ⟨database_id, di.1, m, m.chunk_text, m.file_name⟩
            | none => none
          else none)

/-- The comparison used by `all_results.sort(key=lambda x: x["distance"])`. -/
def distLe (a b : RetrievalResult) : Bool :=
  a.distance ≤ b.distance

/-- The collection scan, global stable sort and truncation of
`search_relevant_documents`, starting from an already-computed query
vector.  `search_relevant_documents` ends in this same computation; the
definition exists separately so that theorems can state which query vector
the scan is run with. -/
def searchCore (env : ChatEnv) (qv : List ℚ) (database_ids : List String)
    (top_k : Int) : List RetrievalResult :=
  ((database_ids.flatMap (searchOneDb env qv top_k.toNat)).mergeSort distLe).take
    top_k.toNat

/-- `search_relevant_documents`: the input guard, the query embedding with
its degenerate-vector check, then scan, sort and truncate. -/
def search_relevant_documents (env : ChatEnv) (query_text : String)
    (database_ids : List String) (top_k : Int) : List RetrievalResult :=
  if query_text = "" ∨ database_ids = [] ∨ top_k ≤ 0 then []
  else
    match ChatBedrockTools.get_embeddings [pyStrip query_text] env.bedrock with
    | Except.error _ => []
    | Except.ok query_embeddings =>
      if query_embeddings = [] ∨ query_embeddings.head? = some [] then []
      else
        ((database_ids.flatMap
            (searchOneDb env (query_embeddings.headD []) top_k.toNat)).mergeSort
          distLe).take top_k.toNat

/-- The fixed lead-in line of `build_rag_context` (note the trailing
newline of the source literal). -/
def leadIn : String := "The following information is from related documents:\n"

/-- The four lines `context_parts.extend(...)` appends per emitted
document: content is the chunk text truncated to 500 characters, with no
ellipsis marker. -/
def docBlock (n : Nat) (file_name chunk_text : String) : List String :=
  ["Document " ++ toString n ++ ":",
   "File name: " ++ file_name,
   "Content: " ++ pyTake chunk_text 500,
   ""]

/-- The `for i, doc in enumerate(relevant_docs, 1)` loop of
`build_rag_context` (the enumeration index `i` is unused by the source):
documents with empty chunk text are skipped; the loop breaks once the
joined parts so far plus the next (untruncated) chunk would exceed 4000
characters.  (Entries are typed `RetrievalResult`, so the source's
`isinstance(doc, dict)` guard is vacuous here.) -/
def ragLoop : List RetrievalResult → List String → Nat → List String × Nat
  | [], parts, processed => (parts, processed)
  | doc :: rest, parts, processed =>
    if doc.chunk_text = "" then ragLoop rest parts processed
    else if 4000 < pyLen (joinNL parts) + pyLen doc.chunk_text then
      (parts, processed)
    else
      ragLoop rest (parts ++ docBlock (processed + 1) doc.file_name doc.chunk_text)
        (processed + 1)

/-- `build_rag_context`: empty input gives the empty string; otherwise run
the loop seeded with the lead-in line and join with newlines, returning
the empty string when no document was emitted. -/
def build_rag_context (relevant_docs : List RetrievalResult) : String :=
  if relevant_docs = [] then ""
  else
    match ragLoop relevant_docs [leadIn] 0 with
    | (parts, processed) => if 0 < processed then joinNL parts else ""

/-- Specification form of the loop of `build_rag_context`, written from the
amended claim: build the output string directly, skipping empty chunks,
stopping once the output so far plus the next untruncated chunk would
exceed 4000 characters, and appending per document a
`Document N / File name / Content` block whose content is the chunk
truncated to 500 characters with no ellipsis marker. -/
def ragSpecLoop : List RetrievalResult → String → Nat → String × Nat
  | [], acc, n => (acc, n)
  | doc :: rest, acc, n =>
    if doc.chunk_text = "" then ragSpecLoop rest acc n
    else if 4000 < pyLen acc + pyLen doc.chunk_text then (acc, n)
    else
      ragSpecLoop rest
        (acc ++ "\n" ++ ("Document " ++ toString (n + 1) ++ ":") ++ "\n"
          ++ ("File name: " ++ doc.file_name) ++ "\n"
          ++ ("Content: " ++ pyTake doc.chunk_text 500) ++ "\n")
        (n + 1)

/-- Specification form of `build_rag_context`, written from the amended
claim; proved equal to `build_rag_context` below. -/
def build_rag_context_spec (relevant_docs : List RetrievalResult) : String :=
  if relevant_docs = [] then ""
  else
    match ragSpecLoop relevant_docs leadIn 0 with
    | (acc, n) => if 0 < n then acc else ""


/-! ### Concrete witness data for the retrieval claims -/

/-- A 501-character chunk for the truncation counterexample. -/
def longChunk : String := String.mk (List.replicate 501 ('a'))

/-- A retrieval result carrying the 501-character chunk. -/
def docLong : RetrievalResult :=
  { database_id := "dbX"
    distance := 0
    metadata := { chunk_text := longChunk, file_name := "f.txt" }
    chunk_text := longChunk
    file_name := "f.txt" }

/-- Witness metadata entry. -/
def metaC4 : ChunkMeta := { chunk_text := "hello chunk", file_name := "doc.txt" }

/-- Witness index with one vector whose search succeeds at distance 1/2. -/
def idxC4 : FaissIndex :=
  { ntotal := 1, search := fun _ _ => Except.ok [((1 : ℚ) / 2, 0)] }

/-- Witness environment for C4: every embedding call raises (so the query
vector is the all-zero fallback) while collection `d1` is present and
searchable. -/
def envC4 : ChatEnv :=
  { bedrock := fun _ => BedrockResp.raises
    db := fun s => if s = "d1" then some (idxC4, [metaC4]) else none }

/-- Witness metadata entries for C5. -/
def metaA0 : ChunkMeta := { chunk_text := "alpha", file_name := "a.txt" }

/-- Second witness metadata entry for C5. -/
def metaA1 : ChunkMeta := { chunk_text := "beta", file_name := "b.txt" }

/-- Witness index for C5 holding two vectors at distances 1/2 and 3/4. -/
def idxA : FaissIndex :=
  { ntotal := 2
    search := fun _ _ => Except.ok [((1 : ℚ) / 2, 0), ((3 : ℚ) / 4, 1)] }

/-- Witness index for C5 whose search always raises. -/
def idxBad : FaissIndex :=
  { ntotal := 1, search := fun _ _ => Except.error ("faiss search failed") }

/-- Witness environment for C5: collection `a` is healthy, collection
`bad` raises during search. -/
def envC5 : ChatEnv :=
  { bedrock := fun _ => BedrockResp.raises
    db := fun s =>
      if s = "a" then some (idxA, [metaA0, metaA1])
      else if s = "bad" then some (idxBad, []) else none }


/-! ### ToolSandbox

The dynamic tool executors:
`src/amplify/functions/execute-tool/index.py` (`install_requirements`,
`download_and_execute_tool`, `handler`),
`src/amplify/functions/chat-bedrock-tools/index.py`
(`install_tool_requirements` lines 269-318, `execute_custom_tool` lines
321-419) and `src/amplify/functions/test-tool/index.py`
(`execute_custom_tool` lines 70-179).

Tool code is untrusted Python; the claims exercise the bare-script
convention and the dispatch/namespace plumbing, so tool code is deeply
embedded as a small statement language (assignments of dictionary /
subscript / multiplication expressions).  The language cannot define
functions, which is faithful for the fragment: a `handler` / `main` /
`execute` binding produced by such a script is never a Python function, so
every dispatch branch that calls one raises (modelled as one `TypeError`
message, collapsing Python's per-branch messages).  Python `exec(code,
globals, locals)` is modelled with both namespaces: names resolve through
locals, then globals, then builtins, and assignments write to locals
(`exec(code, ns)` is the special case `globals = []`, `locals = ns`). -/

/-- A Python value of the embedded fragment.  `vbuiltin` is a callable
builtin (only `input` is reachable by name); `vobj` is an opaque
non-callable object (module, AWS client handle, configuration value,
module-level function object). -/
inductive PyVal where
  | vnone
  | vint (n : Int)
  | vstr (s : String)
  | vbool (b : Bool)
  | vdict (fields : List (String × PyVal))
  | vbuiltin (name : String)
  | vobj (descr : String)

/-- Python dictionary lookup on an association list. -/
def dictGet : List (String × PyVal) → String → Option PyVal
  | [], _ => none
  | (k, v) :: rest, key => if k = key then some v else dictGet rest key

/-- Python dictionary assignment `d[key] = v`. -/
def dictSet : List (String × PyVal) → String → PyVal → List (String × PyVal)
  | [], key, v => [(key, v)]
  | (k, w) :: rest, key, v =>
    if k = key then (k, v) :: rest else (k, w) :: dictSet rest key v

/-- Python `key in d`. -/
def hasKey (d : List (String × PyVal)) (key : String) : Bool :=
  (dictGet d key).isSome

/-- Python `base.update(add)`: set every entry of `add`, in order. -/
def dictUpdate (base add : List (String × PyVal)) : List (String × PyVal) :=
  add.foldl (fun d kv => dictSet d kv.1 kv.2) base

/-- The builtin namespace of the fragment: only `input` is ever reached by
name resolution in the claims. -/
def pyBuiltins (name : String) : Option PyVal :=
  if name = "input" then some (PyVal.vbuiltin ("input")) else none

/-- `callable(v)` for fragment values: only builtins are callable. -/
def pyCallable : PyVal → Bool
  | PyVal.vbuiltin _ => true
  | _ => false

/-- The exception raised when a fragment value is called: non-callables
raise `TypeError: ... is not callable`, and `input(event, context)` /
`input(**kwargs)` also raise.  The distinct Python messages are collapsed
into one per shape, since no claim depends on their text. -/
def callFails : PyVal → String
  | PyVal.vbuiltin n => "TypeError: builtin " ++ n ++ " call raised"
  | _ => "TypeError: object is not callable"

/-- Expressions of the embedded fragment. -/
inductive PyExpr where
  | lit (v : PyVal)
  | name (x : String)
  | subscript (e : PyExpr) (key : String)
  | mul (e₁ e₂ : PyExpr)
  | dict1 (key : String) (e : PyExpr)

/-- Expression evaluation under globals `g` and locals `l`: name lookup is
locals, then globals, then builtins; subscripting a non-dict raises;
`*` is defined on integers. -/
def evalExpr (g l : List (String × PyVal)) : PyExpr → Except String PyVal
  | PyExpr.lit v => Except.ok v
  | PyExpr.name x =>
    match dictGet l x with
    | some v => Except.ok v
    | none =>
      match dictGet g x with
      | some v => Except.ok v
      | none =>
        match pyBuiltins x with
        | some v => Except.ok v
        | none => Except.error ("NameError: name " ++ x ++ " is not defined")
  | PyExpr.subscript e key =>
    match evalExpr g l e with
    | Except.error msg => Except.error msg
    | Except.ok (PyVal.vdict fields) =>
      match dictGet fields key with
      | some v => Except.ok v
      | none => Except.error ("KeyError: " ++ key)
    | Except.ok _ => Except.error ("TypeError: object is not subscriptable")
  | PyExpr.mul e₁ e₂ =>
    match evalExpr g l e₁ with
    | Except.error msg => Except.error msg
    | Except.ok v₁ =>
      match evalExpr g l e₂ with
      | Except.error msg => Except.error msg
      | Except.ok v₂ =>
        match v₁, v₂ with
        | PyVal.vint a, PyVal.vint b => Except.ok (PyVal.vint (a * b))
        | _, _ => Except.error ("TypeError: unsupported operand types for *")
  | PyExpr.dict1 key e =>
    match evalExpr g l e with
    | Except.error msg => Except.error msg
    | Except.ok v => Except.ok (PyVal.vdict [(key, v)])

/-- Statements of the embedded fragment. -/
inductive PyStmt where
  | assign (x : String) (e : PyExpr)

/-- Top-level execution of a script under globals `g`, threading the
locals namespace; the first exception aborts. -/
def execStmts (g : List (String × PyVal)) :
    List PyStmt → List (String × PyVal) → Except String (List (String × PyVal))
  | [], l => Except.ok l
  | PyStmt.assign x e :: rest, l =>
    match evalExpr g l e with
    | Except.error msg => Except.error msg
    | Except.ok v => execStmts g rest (dictSet l x v)

/-- The bare script of spec §8 item 7:
`result = {"value": input["x"] * 2}`. -/
def exampleBareScript : List PyStmt :=
  [PyStmt.assign ("result")
    (PyExpr.dict1 ("value")
      (PyExpr.mul (PyExpr.subscript (PyExpr.name ("input")) ("x"))
        (PyExpr.lit (PyVal.vint 2))))]

/-- A bare script that references no input: `result = 5`. -/
def resultFiveScript : List PyStmt :=
  [PyStmt.assign ("result") (PyExpr.lit (PyVal.vint 5))]

/-- Python `text.split("\n")` on the character list of a string. -/
def splitNLChars : List Char → List (List Char)
  | [] => [[]]
  | c :: rest =>
    if c = '\n' then [] :: splitNLChars rest
    else
      match splitNLChars rest with
      | [] => [[c]]
      | l :: ls => (c :: l) :: ls

/-- Python `text.split("\n")` producing strings. -/
def splitNL (s : String) : List String :=
  (splitNLChars s.data).map String.mk

/-- A single quote character, for source message literals. -/
def sq : String := String.singleton (Char.ofNat 39)

/-- The chat/test executors' message requiring a handler function. -/
def handlerRequiredMsg : String :=
  "Custom tool must define a " ++ sq ++ "handler" ++ sq ++ " function"

namespace ExecuteTool

/-- Outcome of `install_requirements` (execute-tool): it downloads the
requirements file and runs one 60-second `pip install --user` call for all
packages, returning `False` on any failure — the claims only need the
boolean outcome, so the call is abstracted to it. -/
inductive InstallOutcome where
  | ok
  | failed
deriving DecidableEq

/-- The namespace a module executes in when imported via
`importlib.util.spec_from_file_location("custom_tool", path)`. -/
def moduleInitNs : List (String × PyVal) :=
  [(("__name__"), PyVal.vstr ("custom_tool"))]

/-- The result normalization of `download_and_execute_tool`: a dict with
both `statusCode` and `body` is returned as-is, anything else is wrapped
in `{"statusCode": 200, "body": result}`. -/
def normalizeResult : PyVal → PyVal
  | PyVal.vdict fields =>
    if hasKey fields ("statusCode") && hasKey fields ("body") then PyVal.vdict fields
    else
      PyVal.vdict [(("statusCode"), PyVal.vint 200),
        (("body"), PyVal.vdict fields)]
  | v =>
    PyVal.vdict [(("statusCode"), PyVal.vint 200), (("body"), v)]

/-- `download_and_execute_tool`: a failed dependency install is only
logged (`"Failed to install requirements, continuing anyway"`) — the
`install` argument is ignored.  The tool code is first executed as a
module import (with no input fields); an exception there propagates.
Dispatch then tries `handler`, `main`, `execute` (all of which raise for
fragment values, see `callFails`); otherwise the bare-script path executes
the code again in a fresh namespace `{"__name__": "__main__"}` updated
with the input fields, reads the `result` variable if present (else the
fixed success message) and normalizes it. -/
def download_and_execute_tool (code : List PyStmt)
    (parameters : List (String × PyVal)) (install : InstallOutcome) :
    Except String PyVal :=
  match execStmts [] code moduleInitNs with
  | Except.error msg => Except.error msg
  | Except.ok moduleNs =>
    if hasKey moduleNs ("handler") then
      Except.error (callFails ((dictGet moduleNs ("handler")).getD PyVal.vnone))
    else if hasKey moduleNs ("main") then
      Except.error (callFails ((dictGet moduleNs ("main")).getD PyVal.vnone))
    else if hasKey moduleNs ("execute") then
      Except.error (callFails ((dictGet moduleNs ("execute")).getD PyVal.vnone))
    else
      match execStmts [] code
          (dictUpdate [(("__name__"), PyVal.vstr ("__main__"))] parameters) with
      | Except.error msg => Except.error msg
      | Except.ok ns =>
        match dictGet ns ("result") with
        | some v => Except.ok (normalizeResult v)
        | none => Except.ok (normalizeResult (PyVal.vstr ("Tool executed successfully")))

/-- The outer Lambda `handler` of execute-tool: wraps a normal return in a
success envelope and a raised exception in
`{"statusCode": 500, "error": str(e), "success": False}`. -/
def handler (tool_name : String) (code : List PyStmt)
    (parameters : List (String × PyVal)) (install : InstallOutcome) : PyVal :=
  match download_and_execute_tool code parameters install with
  | Except.ok r =>
    PyVal.vdict [(("statusCode"), PyVal.vint 200),
      (("tool_name"), PyVal.vstr tool_name), (("result"), r),
      (("success"), PyVal.vbool true)]
  | Except.error msg =>
    PyVal.vdict [(("statusCode"), PyVal.vint 500), (("error"), PyVal.vstr msg),
      (("success"), PyVal.vbool false)]

end ExecuteTool

namespace ChatBedrockTools

/-- Outcome of one `pip install <package> --target /tmp/packages` call in
`install_tool_requirements` (chat-bedrock-tools / test-tool). -/
inductive PipOutcome where
  | success
  | exitNonzero
  | timeout
deriving DecidableEq

/-- `[req.strip() for req in requirements.split("\n") if req.strip()]`. -/
def parseRequirements (requirements : String) : List String :=
  ((splitNL requirements).map pyStrip).filter (fun r => r ≠ "")

/-- The `for package in packages` loop: abort at the first non-zero exit
or timeout. -/
def installLoop (pip : String → PipOutcome) : List String → Bool
  | [] => true
  | p :: rest =>
    match pip p with
    | PipOutcome.success => installLoop pip rest
    | _ => false

/-- `install_tool_requirements` (chat-bedrock-tools): empty or blank
requirement lists are a no-op success; otherwise install each parsed
package with the fixed 30-second per-package budget, aborting on the first
failure.  (The DynamoDB lookup of the requirements string is abstracted:
the string is a parameter.) -/
def install_tool_requirements (requirements : String)
    (pip : String → PipOutcome) : Bool :=
  if pyStrip requirements = "" then true
  else installLoop pip (parseRequirements requirements)

/-- The module-level global namespace of chat-bedrock-tools/index.py at
the time `execute_custom_tool` runs, as opaque values: imports, AWS client
handles, configuration constants and the module's own functions.  Of the
interpreter-maintained dunder entries only `__name__` and `__builtins__`
are listed; the remaining ones (`__file__`, `__doc__`, `__loader__`,
`__spec__`, `__package__`) are likewise present in `globals()` but play no
part in any claim. -/
def moduleGlobals : List (String × PyVal) :=
  [(("__name__"), PyVal.vstr ("index")),
   (("__builtins__"), PyVal.vobj ("module builtins")),
   (("json"), PyVal.vobj ("module json")),
   (("logging"), PyVal.vobj ("module logging")),
   (("boto3"), PyVal.vobj ("module boto3")),
   (("os"), PyVal.vobj ("module os")),
   (("pickle"), PyVal.vobj ("module pickle")),
   (("tempfile"), PyVal.vobj ("module tempfile")),
   (("np"), PyVal.vobj ("module numpy")),
   (("faiss"), PyVal.vobj ("module faiss")),
   (("List"), PyVal.vobj ("typing.List")),
   (("Dict"), PyVal.vobj ("typing.Dict")),
   (("Optional"), PyVal.vobj ("typing.Optional")),
   (("Any"), PyVal.vobj ("typing.Any")),
   (("Tuple"), PyVal.vobj ("typing.Tuple")),
   (("datetime"), PyVal.vobj ("class datetime.datetime")),
   (("Attr"), PyVal.vobj ("boto3.dynamodb.conditions.Attr")),
   (("logger"), PyVal.vobj ("logging.Logger")),
   (("bedrock_client"), PyVal.vobj ("botocore client bedrock-runtime")),
   (("s3_client"), PyVal.vobj ("botocore client s3")),
   (("dynamodb"), PyVal.vobj ("boto3 resource dynamodb")),
   (("STORAGE_BUCKET_NAME"), PyVal.vobj ("env STORAGE_BUCKET_NAME")),
   (("FAISS_INDEX_PREFIX"), PyVal.vobj ("env FAISS_INDEX_PREFIX")),
   (("EMBEDDING_MODEL_ID"), PyVal.vstr ("amazon.titan-embed-text-v1")),
   (("EMBEDDING_DIMENSION"), PyVal.vint 1536),
   (("FALLBACK_MODEL_ID"), PyVal.vobj ("model id")),
   (("DEFAULT_DAILY_TOKEN_LIMIT"), PyVal.vobj ("env DAILY_TOKEN_LIMIT")),
   (("DEFAULT_DAILY_REQUEST_LIMIT"), PyVal.vobj ("env DAILY_REQUEST_LIMIT")),
   (("USER_USAGE_TABLE_NAME"), PyVal.vobj ("env USER_USAGE_TABLE_NAME")),
   (("TOOLSPECS_TABLE_NAME"), PyVal.vobj ("env TOOLSPECS_TABLE_NAME")),
   (("user_usage_table"), PyVal.vobj ("dynamodb Table")),
   (("toolspecs_table"), PyVal.vobj ("dynamodb Table")),
   (("get_embeddings"), PyVal.vobj ("function get_embeddings")),
   (("load_faiss_index"), PyVal.vobj ("function load_faiss_index")),
   (("search_relevant_documents"), PyVal.vobj ("function search_relevant_documents")),
   (("build_rag_context"), PyVal.vobj ("function build_rag_context")),
   (("load_tools_from_dynamodb"), PyVal.vobj ("function load_tools_from_dynamodb")),
   (("get_tool_execution_code"), PyVal.vobj ("function get_tool_execution_code")),
   (("install_tool_requirements"), PyVal.vobj ("function install_tool_requirements")),
   (("execute_custom_tool"), PyVal.vobj ("function execute_custom_tool")),
   (("get_fallback_tools"), PyVal.vobj ("function get_fallback_tools")),
   (("get_user_id_from_event"), PyVal.vobj ("function get_user_id_from_event")),
   (("get_current_period"), PyVal.vobj ("function get_current_period")),
   (("get_user_usage"), PyVal.vobj ("function get_user_usage")),
   (("check_user_usage_limits"), PyVal.vobj ("function check_user_usage_limits")),
   (("update_user_usage"), PyVal.vobj ("function update_user_usage")),
   (("build_converse_params"), PyVal.vobj ("function build_converse_params")),
   (("handler"), PyVal.vobj ("function handler"))]

/-- The five utilities `execution_globals.update({...})` injects in
`execute_custom_tool` (chat-bedrock-tools), lines 337-346. -/
def injectedUtilities : List (String × PyVal) :=
  [(("json"), PyVal.vobj ("module json")),
   (("datetime"), PyVal.vobj ("class datetime.datetime")),
   (("logger"), PyVal.vobj ("logging.Logger")),
   (("os"), PyVal.vobj ("module os")),
   (("tempfile"), PyVal.vobj ("module tempfile"))]

/-- `execution_globals = globals().copy()` followed by
`execution_globals.update({...})`. -/
def execution_globals : List (String × PyVal) :=
  dictUpdate moduleGlobals injectedUtilities

/-- `execute_custom_tool` (chat-bedrock-tools): resolve the code (an
absent code is a failure envelope), install requirements (a failure is a
failure envelope, before the code runs), `exec` the code with
`execution_globals` as globals and fresh locals (an exception is caught
into a failure envelope), then require a callable `handler` in the locals;
in the embedded fragment a handler value is never a Python function, so
the handler branches end in the corresponding failure envelopes. -/
def execute_custom_tool (execution_code : Option (List PyStmt))
    (tool_name : String) (requirements : String) (pip : String → PipOutcome)
    (tool_input : List (String × PyVal)) : PyVal :=
  match execution_code with
  | none =>
    PyVal.vdict
      [(("error"), PyVal.vstr ("No execution code found for tool: " ++ tool_name)),
       (("success"), PyVal.vbool false)]
  | some code =>
    if install_tool_requirements requirements pip = false then
      PyVal.vdict
        [(("error"),
          PyVal.vstr ("Failed to install requirements for tool: " ++ tool_name)),
         (("success"), PyVal.vbool false)]
    else
      match execStmts execution_globals code [] with
      | Except.error msg =>
        PyVal.vdict
          [(("error"), PyVal.vstr ("Custom tool execution failed: " ++ msg)),
           (("success"), PyVal.vbool false)]
      | Except.ok local_vars =>
        match dictGet local_vars ("handler") with
        | none =>
          PyVal.vdict [(("error"), PyVal.vstr handlerRequiredMsg),
            (("success"), PyVal.vbool false)]
        | some h =>
          if pyCallable h = false then
            PyVal.vdict [(("error"), PyVal.vstr ("Handler must be a callable function")),
              (("success"), PyVal.vbool false)]
          else
            PyVal.vdict
              [(("error"), PyVal.vstr ("Custom tool execution failed: " ++ callFails h)),
               (("success"), PyVal.vbool false)]

end ChatBedrockTools

namespace TestTool

/-- The execution namespace of `execute_custom_tool` (test-tool), built
literally at lines 75-83: the five utilities plus the full builtins. -/
def execution_globals : List (String × PyVal) :=
  [(("json"), PyVal.vobj ("module json")),
   (("datetime"), PyVal.vobj ("class datetime.datetime")),
   (("logger"), PyVal.vobj ("logging.Logger")),
   (("os"), PyVal.vobj ("module os")),
   (("tempfile"), PyVal.vobj ("module tempfile")),
   (("__builtins__"), PyVal.vobj ("module builtins"))]

end TestTool

/-- A pip environment in which every install exits non-zero. -/
def pipAlwaysFails : String → ChatBedrockTools.PipOutcome :=
  fun _ => ChatBedrockTools.PipOutcome.exitNonzero


/-! ## Theorems -/

/-! #### Facts about `stripChars` -/

theorem dropWhile_stripChars (xs : List Char) :
    (stripChars xs).dropWhile isPySpace = stripChars xs := by
  unfold stripChars
  rcases h : (xs.dropWhile isPySpace).rdropWhile isPySpace with _ | ⟨c, rest⟩
  · simp
  · have hpre : (xs.dropWhile isPySpace).rdropWhile isPySpace <+: xs.dropWhile isPySpace :=
      List.rdropWhile_prefix _ _
    rw [h] at hpre
    obtain ⟨t, ht⟩ := hpre
    have hd : xs.dropWhile isPySpace = c :: (rest ++ t) := by
      rw [← ht]; simp
    have hc : isPySpace c = false := by
      have h2 := List.head?_dropWhile_not isPySpace xs
      rw [hd] at h2
      simpa using h2
    simp [List.dropWhile_cons, hc]

theorem stripChars_idem (xs : List Char) :
    stripChars (stripChars xs) = stripChars xs := by
  conv_lhs => rw [stripChars, dropWhile_stripChars]
  rw [stripChars, List.rdropWhile_idempotent]

theorem stripChars_length_le (xs : List Char) :
    (stripChars xs).length ≤ xs.length := by
  calc (stripChars xs).length
      ≤ (xs.dropWhile isPySpace).length :=
        (List.rdropWhile_prefix _ _).length_le
    _ ≤ xs.length := (List.dropWhile_sublist isPySpace).length_le

@[simp] theorem stripChars_nil : stripChars [] = [] := rfl

/-! #### Lemmas about `split_text` -/

theorem breakPointCalc_le (text : List Char) (start endPos cs : Nat) :
    breakPointCalc text start endPos cs ≤ endPos := by
  unfold breakPointCalc
  cases h : (List.range (min (cs / 4) (endPos - start))).find?
      (fun i => ((text.get? (endPos - i)).map isPySpace).getD false) with
  | none => exact Nat.le_refl _
  | some i => exact Nat.sub_le _ _

/-- Every chunk the loop appends is a stripped slice of at most `cs`
characters, so the loop preserves the bound on all accumulated chunks. -/
theorem splitLoop_length_le (text : List Char) (cs ov : Nat) :
    ∀ fuel start acc out, (∀ c ∈ acc, c.length ≤ cs) →
      splitLoop text cs ov fuel start acc = some out →
      ∀ c ∈ out, c.length ≤ cs := by
  intro fuel
  induction fuel with
  | zero =>
    intro start acc out _ h
    simp [splitLoop] at h
  | succ n ih =>
    intro start acc out hacc h
    rw [splitLoop] at h
    by_cases h1 : start < text.length
    · rw [if_pos h1] at h
      by_cases h2 : text.length ≤ start + cs
      · rw [if_pos h2] at h
        injection h with h
        subst h
        intro c hc
        rcases List.mem_append.mp hc with h3 | h3
        · exact hacc c h3
        · have h4 : c = stripChars (text.drop start) := by simpa using h3
          subst h4
          calc (stripChars (text.drop start)).length
              ≤ (text.drop start).length := stripChars_length_le _
            _ ≤ cs := by simp; omega
      · rw [if_neg h2] at h
        refine ih _ _ _ ?_ h
        intro c hc
        rcases List.mem_append.mp hc with h3 | h3
        · exact hacc c h3
        · have h4 : c = stripChars ((text.drop start).take
              (breakPointCalc text start (start + cs) cs - start)) := by simpa using h3
          subst h4
          have h5 := breakPointCalc_le text start (start + cs) cs
          calc (stripChars _).length
              ≤ ((text.drop start).take
                  (breakPointCalc text start (start + cs) cs - start)).length :=
                stripChars_length_le _
            _ ≤ breakPointCalc text start (start + cs) cs - start := by
                simp [List.length_take]
            _ ≤ cs := by omega
    · rw [if_neg h1] at h
      injection h with h
      subst h
      exact hacc

/-- Every chunk the loop appends is of the form `stripChars y`. -/
theorem splitLoop_stripped (text : List Char) (cs ov : Nat) :
    ∀ fuel start acc out, (∀ c ∈ acc, ∃ y, c = stripChars y) →
      splitLoop text cs ov fuel start acc = some out →
      ∀ c ∈ out, ∃ y, c = stripChars y := by
  intro fuel
  induction fuel with
  | zero =>
    intro start acc out _ h
    simp [splitLoop] at h
  | succ n ih =>
    intro start acc out hacc h
    rw [splitLoop] at h
    by_cases h1 : start < text.length
    · rw [if_pos h1] at h
      by_cases h2 : text.length ≤ start + cs
      · rw [if_pos h2] at h
        injection h with h
        subst h
        intro c hc
        rcases List.mem_append.mp hc with h3 | h3
        · exact hacc c h3
        · exact ⟨_, by simpa using h3⟩
      · rw [if_neg h2] at h
        refine ih _ _ _ ?_ h
        intro c hc
        rcases List.mem_append.mp hc with h3 | h3
        · exact hacc c h3
        · exact ⟨_, by simpa using h3⟩
    · rw [if_neg h1] at h
      injection h with h
      subst h
      exact hacc



theorem breakPointCalc_ge_defaults (text : List Char) (start : Nat) :
    start + 751 ≤ breakPointCalc text start (start + 1000) 1000 := by
  unfold breakPointCalc
  cases h : (List.range (min (1000 / 4) (start + 1000 - start))).find?
      (fun i => ((text.get? (start + 1000 - i)).map isPySpace).getD false) with
  | none =>
    show start + 751 ≤ start + 1000
    omega
  | some i =>
    have hmem := List.mem_of_find?_eq_some h
    have hi : i < min (1000 / 4) (start + 1000 - start) := List.mem_range.mp hmem
    show start + 751 ≤ start + 1000 - i
    omega

theorem splitLoop_total_defaults (text : List Char) :
    ∀ fuel start acc, text.length ≤ start + 551 * fuel →
      (splitLoop text 1000 200 (fuel + 1) start acc).isSome = true := by
  intro fuel
  induction fuel with
  | zero =>
    intro start acc h
    rw [splitLoop]
    by_cases h1 : start < text.length
    · rw [if_pos h1, if_pos (by omega)]
      rfl
    · rw [if_neg h1]
      rfl
  | succ n ih =>
    intro start acc h
    rw [splitLoop]
    by_cases h1 : start < text.length
    · rw [if_pos h1]
      by_cases h2 : text.length ≤ start + 1000
      · rw [if_pos h2]
        rfl
      · rw [if_neg h2]
        have hbp := breakPointCalc_ge_defaults text start
        have hbp2 := breakPointCalc_le text start (start + 1000) 1000
        have hns : nextStart (breakPointCalc text start (start + 1000) 1000) 200 =
            breakPointCalc text start (start + 1000) 1000 - 200 := by
          rw [nextStart, if_neg (by omega)]
          omega
        rw [hns]
        exact ih _ _ (by omega)
    · rw [if_neg h1]
      rfl

theorem split_text_total_defaults (text : List Char) :
    (split_text text 1000 200).isSome = true := by
  rw [split_text]
  by_cases h : text.length ≤ 1000
  · rw [if_pos h]
    rfl
  · rw [if_neg h]
    have : text.length + 2 = (text.length + 1) + 1 := by omega
    rw [this]
    have h2 := splitLoop_total_defaults text (text.length + 1) 0 [] (by omega)
    cases h3 : splitLoop text 1000 200 (text.length + 1 + 1) 0 [] with
    | none =>
      rw [h3] at h2
      simp at h2
    | some raw => rfl

/-! #### Claims C9 and C10 -/

/-- Claim C9, counterexample: the claim says `split(text, 1000, 200)` on a
text of length at most chunkSize returns `[text.strip()]` and that every
returned chunk is trimmed, with empty-after-trim chunks dropped and the
result non-empty.  The code instead returns the single chunk untrimmed on
the short path (`split(" a ", 1000, 200) = [" a "]`, not `["a"]`), and on
1001 spaces the long path returns the empty list. -/
theorem claim_C9_counterexample :
    split_text ((" a ").toList) 1000 200 = some [(" a ").toList] ∧
    stripChars ((" a ").toList) ≠ (" a ").toList ∧
    split_text (List.replicate 1001 ' ') 1000 200 = some [] := by
  refine ⟨by decide, by decide, by decide⟩

/-- Claim C9, amended: `split` always terminates at the default
parameters (1000, 200); for every text of length at most chunkSize,
`split(text, 1000, 200)` returns the one-element list `[text]` with no
trimming or dropping; for longer text, every chunk of the returned
sequence (which may be empty for all-whitespace input) is trimmed of
leading and trailing whitespace, and chunks that are empty after trimming
are dropped. -/
theorem claim_C9_amended :
    (∀ text : List Char, (split_text text 1000 200).isSome = true) ∧
    (∀ text : List Char, text.length ≤ 1000 → split_text text 1000 200 = some [text]) ∧
    (∀ (text : List Char) (cs ov : Nat) (chunks : List (List Char)),
        cs < text.length → split_text text cs ov = some chunks →
        ∀ c ∈ chunks, stripChars c = c ∧ c ≠ []) := by
  refine ⟨split_text_total_defaults, ?_, ?_⟩
  · intro text h
    simp [split_text, h]
  · intro text cs ov chunks hlen hsp c hc
    rw [split_text, if_neg (by omega)] at hsp
    rcases Option.map_eq_some'.mp hsp with ⟨raw, hraw, hfil⟩
    subst hfil
    have hmem := List.mem_filter.mp hc
    have hstr : ∃ y, c = stripChars y :=
      splitLoop_stripped text cs ov _ 0 [] raw (by simp) hraw c hmem.1
    rcases hstr with ⟨y, hy⟩
    have hidem : stripChars c = c := by rw [hy, stripChars_idem]
    have hne : (stripChars c) ≠ [] := by
      have := hmem.2
      simp at this
      simpa [List.isEmpty_iff] using this
    refine ⟨hidem, ?_⟩
    rw [hidem] at hne
    exact hne

/-- Witness for claim C9 amended, at `"hi"` (short path) and at
`split("ab cde", 4, 1)` (long path, chunk `"ab c"`). -/
theorem claim_C9_amended_witness :
    (split_text (("a b").toList) 1000 200).isSome = true ∧
    split_text (("hi").toList) 1000 200 = some [("hi").toList] ∧
    (stripChars (("ab c").toList) = ("ab c").toList ∧ ("ab c").toList ≠ []) :=
  ⟨claim_C9_amended.1 (("a b").toList),
   claim_C9_amended.2.1 _ (by decide),
   claim_C9_amended.2.2 (("ab cde").toList) 4 1 [(("ab c").toList), (("cde").toList)] (by decide) (by decide) _ (by decide)⟩

/-- Claim C10, confirmed: for every input text and positive chunkSize, and
any overlap for which split terminates (`split_text ... = some chunks`),
every chunk in the returned sequence has length at most chunkSize. -/
theorem claim_C10 :
    ∀ (text : List Char) (cs ov : Nat) (chunks : List (List Char)),
      0 < cs → split_text text cs ov = some chunks →
      ∀ c ∈ chunks, c.length ≤ cs := by
  intro text cs ov chunks _ hsp c hc
  rw [split_text] at hsp
  by_cases h1 : text.length ≤ cs
  · rw [if_pos h1] at hsp
    injection hsp with hsp
    subst hsp
    have : c = text := by simpa using hc
    subst this
    exact h1
  · rw [if_neg h1] at hsp
    rcases Option.map_eq_some'.mp hsp with ⟨raw, hraw, hfil⟩
    subst hfil
    exact splitLoop_length_le text cs ov _ 0 [] raw (by simp) hraw c (List.mem_filter.mp hc).1

/-- Witness for claim C10, at `split("ab cde", 4, 1)` whose first chunk is
`"ab c"`. -/
theorem claim_C10_witness :
    ("ab c").toList.length ≤ 4 :=
  claim_C10 (("ab cde").toList) 4 1 [(("ab c").toList), (("cde").toList)] (by decide) (by decide) _ (by decide)



/-! #### Lemmas about the embedding clients -/

theorem chat_embedLoop_eq_map (env : String → BedrockResp) (texts : List String) :
    ChatBedrockTools.embedLoop env texts = texts.map (ChatBedrockTools.embedOne env) := by
  induction texts with
  | nil => rfl
  | cons t rest ih => simp [ChatBedrockTools.embedLoop, ChatBedrockTools.embedOne, ih]

theorem chat_embedOne_length (env : String → BedrockResp) (t : String) :
    (ChatBedrockTools.embedOne env t).length = EMBEDDING_DIMENSION := by
  unfold ChatBedrockTools.embedOne
  split
  · simp [zeroVec]
  · split
    · simp [zeroVec]
    · split
      · next h => exact h.2
      · simp [zeroVec]

theorem embedFiles_embedLoop_eq_map (env : String → BedrockResp) (texts : List String) :
    EmbedFiles.embedLoop env texts = texts.map (EmbedFiles.embedOne env) := by
  induction texts with
  | nil => rfl
  | cons t rest ih => simp [EmbedFiles.embedLoop, EmbedFiles.embedOne, ih]

/-- Claim C7, counterexample: the claim says embed on the empty list always
fails with an input error; the embed-files implementation instead returns
the empty list normally (it has no empty-list guard and no raise path). -/
theorem claim_C7_counterexample :
    EmbedFiles.get_embeddings [] bedrockAlwaysRaises = [] := rfl

/-- Claim C7, amended: the chat-bedrock-tools embed fails on the empty list
with the input error and this is its only raise: for a non-empty input it
returns normally with one vector per text in input order, each text's
vector depending only on that text (zero vector on a per-text failure).
The embed-files embed never raises at all: on the empty list it returns
the empty list, and otherwise one vector per text in order. -/
theorem claim_C7_amended :
    (∀ env, ChatBedrockTools.get_embeddings [] env =
      Except.error ("Texts list cannot be empty")) ∧
    (∀ env texts, texts ≠ [] →
      ChatBedrockTools.get_embeddings texts env =
        Except.ok (texts.map (ChatBedrockTools.embedOne env))) ∧
    (∀ env texts, EmbedFiles.get_embeddings texts env =
      texts.map (EmbedFiles.embedOne env)) := by
  refine ⟨fun env => rfl, fun env texts h => ?_, fun env texts => ?_⟩
  · rw [ChatBedrockTools.get_embeddings, if_neg h, chat_embedLoop_eq_map]
  · rw [EmbedFiles.get_embeddings, embedFiles_embedLoop_eq_map]

/-- Witness for claim C7 amended: the non-empty-input part at the one-text
list `[""]` under the always-raising environment. -/
theorem claim_C7_amended_witness :
    ChatBedrockTools.get_embeddings [("")] bedrockAlwaysRaises =
      Except.ok [zeroVec] :=
  (claim_C7_amended.2.1 bedrockAlwaysRaises [("")] (by decide)).trans (by rfl)

/-- Claim C8, counterexample: the claim says every vector produced by the
embedding operation has exactly length 1536 even when the model returns a
response of a different length; the embed-files implementation appends a
successful wrong-length response unchecked. -/
theorem claim_C8_counterexample :
    EmbedFiles.get_embeddings [("hello")] bedrockWrongDim = [[(1 : ℚ)]] ∧
    ([(1 : ℚ)]).length ≠ EMBEDDING_DIMENSION := by
  exact ⟨rfl, by decide⟩

/-- Claim C8, amended: every vector produced by the chat-bedrock-tools
embed has exactly length 1536 whether the model call succeeds, fails, or
returns a wrong-length response; the embed-files embed guarantees length
1536 only for the exception fallback (a successful response is appended
with whatever length it has). -/
theorem claim_C8_amended :
    (∀ env texts out, ChatBedrockTools.get_embeddings texts env = Except.ok out →
      ∀ v ∈ out, v.length = EMBEDDING_DIMENSION) ∧
    (∀ env t, env t = BedrockResp.raises →
      (EmbedFiles.embedOne env t).length = EMBEDDING_DIMENSION) := by
  constructor
  · intro env texts out h v hv
    rw [ChatBedrockTools.get_embeddings] at h
    by_cases he : texts = []
    · rw [if_pos he] at h
      exact absurd h (by simp)
    · rw [if_neg he] at h
      injection h with h
      subst h
      rw [chat_embedLoop_eq_map] at hv
      rcases List.mem_map.mp hv with ⟨t, _, ht⟩
      rw [← ht]
      exact chat_embedOne_length env t
  · intro env t h
    rw [EmbedFiles.embedOne, h]
    simp [zeroVec]

/-- Witness for claim C8 amended: the chat part at `[""]` under the
always-raising environment (output `[zeroVec]`), and the embed-files part
at `"x"` under the same environment. -/
theorem claim_C8_amended_witness :
    zeroVec.length = EMBEDDING_DIMENSION ∧
    (EmbedFiles.embedOne bedrockAlwaysRaises ("x")).length = EMBEDDING_DIMENSION :=
  ⟨claim_C8_amended.1 bedrockAlwaysRaises [("")] [zeroVec] (by rfl) zeroVec
      (List.mem_singleton.mpr rfl),
   claim_C8_amended.2 bedrockAlwaysRaises ("x") rfl⟩



/-! #### Lemmas about `joinNL` and `build_rag_context` -/

theorem empty_string_data : ("" : String).data = [] := rfl

theorem joinNL_cons (s : String) (rest : List String) (h : rest ≠ []) :
    joinNL (s :: rest) = s ++ "\n" ++ joinNL rest := by
  cases rest with
  | nil => cases h rfl
  | cons q r => rfl

theorem joinNL_append4 (parts : List String) (h : parts ≠ []) (a b c : String) :
    joinNL (parts ++ [a, b, c, ""]) =
      joinNL parts ++ "\n" ++ a ++ "\n" ++ b ++ "\n" ++ c ++ "\n" := by
  induction parts with
  | nil => cases h rfl
  | cons p rest ih =>
    cases rest with
    | nil =>
      apply String.ext
      simp [joinNL, String.data_append, empty_string_data]
    | cons q r =>
      rw [List.cons_append, joinNL_cons p ((q :: r) ++ [a, b, c, ""]) (by simp),
        joinNL_cons p (q :: r) (by simp), ih (by simp)]
      apply String.ext
      simp [String.data_append, List.append_assoc]

theorem ragLoop_spec (docs : List RetrievalResult) :
    ∀ (parts : List String) (n : Nat), parts ≠ [] →
      ragSpecLoop docs (joinNL parts) n =
        (joinNL (ragLoop docs parts n).1, (ragLoop docs parts n).2) := by
  induction docs with
  | nil => intro parts n h; rfl
  | cons doc rest ih =>
    intro parts n h
    rw [ragSpecLoop, ragLoop]
    by_cases h1 : doc.chunk_text = ""
    · rw [if_pos h1, if_pos h1]
      exact ih parts n h
    · rw [if_neg h1, if_neg h1]
      by_cases h2 : 4000 < pyLen (joinNL parts) + pyLen doc.chunk_text
      · rw [if_pos h2, if_pos h2]
      · rw [if_neg h2, if_neg h2]
        have hblock : joinNL parts ++ "\n" ++ ("Document " ++ toString (n + 1) ++ ":")
            ++ "\n" ++ ("File name: " ++ doc.file_name) ++ "\n"
            ++ ("Content: " ++ pyTake doc.chunk_text 500) ++ "\n" =
            joinNL (parts ++ docBlock (n + 1) doc.file_name doc.chunk_text) := by
          rw [docBlock, joinNL_append4 parts h]
        rw [hblock]
        exact ih _ _ (by simp [docBlock])

/-- Claim C6, counterexample: the claim says the emitted content is the
chunk text truncated to 500 characters "with an ellipsis marker if
longer"; on a 501-character chunk the code emits exactly the first 500
characters and no ellipsis marker appears anywhere in the output. -/
theorem claim_C6_counterexample :
    build_rag_context [docLong] =
      leadIn ++ "\n" ++ "Document 1:" ++ "\n" ++ "File name: f.txt" ++ "\n"
        ++ ("Content: " ++ String.mk (List.replicate 500 ('a'))) ++ "\n" ∧
    pyLen docLong.chunk_text = 501 ∧
    ¬ (("...").toList <:+: (build_rag_context [docLong]).toList) := by
  refine ⟨by decide, by decide, by decide⟩

/-- Claim C6, amended: `buildContext` on the empty list returns the empty
string; otherwise it skips results with empty chunk text, and if any
document is emitted the output is the fixed lead-in line followed, for
each emitted result in order, by a newline-joined
`Document N / File name / Content` block whose content is the chunk text
truncated to 500 characters with no ellipsis marker; it stops emitting
once the output built so far plus the next (untruncated) chunk's length
would exceed 4000 characters, and returns the empty string when no
document was emitted. -/
theorem claim_C6_amended :
    build_rag_context [] = "" ∧
    ∀ docs, build_rag_context docs = build_rag_context_spec docs := by
  constructor
  · rfl
  · intro docs
    by_cases h : docs = []
    · rw [h]; rfl
    · rw [build_rag_context, build_rag_context_spec, if_neg h, if_neg h]
      have hlead : joinNL [leadIn] = leadIn := rfl
      have := ragLoop_spec docs [leadIn] 0 (by simp)
      rw [hlead] at this
      rw [this]



/-! #### Lemmas about `search_relevant_documents` -/

theorem chat_embedOne_ne_nil (env : String → BedrockResp) (t : String) :
    ChatBedrockTools.embedOne env t ≠ [] := by
  intro h
  have h2 := chat_embedOne_length env t
  rw [h] at h2
  simp [EMBEDDING_DIMENSION] at h2

theorem search_eq_core (env : ChatEnv) (q : String) (ids : List String) (k : Int)
    (hq : q ≠ "") (hids : ids ≠ []) (hk : 0 < k) :
    search_relevant_documents env q ids k =
      searchCore env (ChatBedrockTools.embedOne env.bedrock (pyStrip q)) ids k := by
  have hne : ChatBedrockTools.embedOne env.bedrock (pyStrip q) ≠ [] :=
    chat_embedOne_ne_nil _ _
  have hemb : ChatBedrockTools.get_embeddings [pyStrip q] env.bedrock =
      Except.ok [ChatBedrockTools.embedOne env.bedrock (pyStrip q)] := by
    rw [ChatBedrockTools.get_embeddings, if_neg (by simp), chat_embedLoop_eq_map]
    rfl
  rw [search_relevant_documents, if_neg (by push_neg; exact ⟨hq, hids, by omega⟩), hemb]
  dsimp only
  rw [if_neg (by simp [hne])]
  rfl

theorem distLe_trans : ∀ a b c, distLe a b → distLe b c → distLe a c := by
  intro a b c h1 h2
  simp [distLe] at h1 h2 ⊢
  exact le_trans h1 h2

theorem distLe_total : ∀ a b, distLe a b || distLe b a := by
  intro a b
  simp [distLe]
  exact le_total _ _

theorem distLe_iff (a b : RetrievalResult) :
    distLe a b = true ↔ a.distance ≤ b.distance := by
  simp [distLe]

theorem search_len (env : ChatEnv) (q : String) (ids : List String) (k : Int)
    (hk : 0 < k) :
    ((search_relevant_documents env q ids k).length : Int) ≤ k := by
  rw [search_relevant_documents]
  by_cases hg : q = "" ∨ ids = [] ∨ k ≤ 0
  · rw [if_pos hg]
    simp
    omega
  · rw [if_neg hg]
    cases hE : ChatBedrockTools.get_embeddings [pyStrip q] env.bedrock with
    | error e =>
      dsimp only
      simp
      omega
    | ok qe =>
      dsimp only
      by_cases h2 : qe = [] ∨ qe.head? = some []
      · rw [if_pos h2]
        simp
        omega
      · rw [if_neg h2]
        have h3 : (((ids.flatMap
            (searchOneDb env (qe.headD []) k.toNat)).mergeSort distLe).take
              k.toNat).length ≤ k.toNat := by
          simp [List.length_take]
        have h4 : ((k.toNat : Int)) = k := Int.toNat_of_nonneg (by omega)
        omega

theorem search_sorted (env : ChatEnv) (q : String) (ids : List String) (k : Int) :
    List.Pairwise (fun a b => a.distance ≤ b.distance)
      (search_relevant_documents env q ids k) := by
  rw [search_relevant_documents]
  by_cases hg : q = "" ∨ ids = [] ∨ k ≤ 0
  · rw [if_pos hg]
    simp
  · rw [if_neg hg]
    cases hE : ChatBedrockTools.get_embeddings [pyStrip q] env.bedrock with
    | error e =>
      dsimp only
      simp
    | ok qe =>
      dsimp only
      by_cases h2 : qe = [] ∨ qe.head? = some []
      · rw [if_pos h2]
        simp
      · rw [if_neg h2]
        have hs := @List.sorted_mergeSort RetrievalResult distLe distLe_trans
          distLe_total (ids.flatMap (searchOneDb env (qe.headD []) k.toNat))
        have hs2 := hs.imp (fun {a b} h => (distLe_iff a b).mp h)
        exact hs2.sublist (List.take_sublist _ _)

theorem searchOneDb_raises (env : ChatEnv) (qv : List ℚ) (kk : Nat) (bad : String)
    (idx : FaissIndex) (md : List ChunkMeta) (emsg : String)
    (hdb : env.db (pyStrip bad) = some (idx, md))
    (hraise : ∀ q k, idx.search q k = Except.error emsg) :
    searchOneDb env qv kk bad = [] := by
  rw [searchOneDb, load_faiss_index]
  by_cases hb : bad = ""
  · rw [if_pos hb]
  · rw [if_neg hb, hdb]
    dsimp only
    by_cases hn : idx.ntotal = 0
    · rw [if_pos hn]
    · rw [if_neg hn, hraise]

theorem searchCore_skip (env : ChatEnv) (qv : List ℚ) (ids₁ ids₂ : List String)
    (bad : String) (k : Int) (idx : FaissIndex) (md : List ChunkMeta) (emsg : String)
    (hdb : env.db (pyStrip bad) = some (idx, md))
    (hraise : ∀ q kk, idx.search q kk = Except.error emsg) :
    searchCore env qv (ids₁ ++ bad :: ids₂) k = searchCore env qv (ids₁ ++ ids₂) k := by
  rw [searchCore, searchCore, List.flatMap_append, List.flatMap_append,
    List.flatMap_cons, searchOneDb_raises env qv k.toNat bad idx md emsg hdb hraise,
    List.nil_append]

theorem search_skip (env : ChatEnv) (q : String) (ids₁ ids₂ : List String)
    (bad : String) (k : Int) (idx : FaissIndex) (md : List ChunkMeta) (emsg : String)
    (hdb : env.db (pyStrip bad) = some (idx, md))
    (hraise : ∀ q kk, idx.search q kk = Except.error emsg) :
    search_relevant_documents env q (ids₁ ++ bad :: ids₂) k =
      search_relevant_documents env q (ids₁ ++ ids₂) k := by
  by_cases hq : q = ""
  · rw [search_relevant_documents, search_relevant_documents,
      if_pos (Or.inl hq), if_pos (Or.inl hq)]
  · by_cases hk : k ≤ 0
    · rw [search_relevant_documents, search_relevant_documents,
        if_pos (Or.inr (Or.inr hk)), if_pos (Or.inr (Or.inr hk))]
    · by_cases hids : ids₁ ++ ids₂ = []
      · rw [search_eq_core env q _ k hq (by simp) (by omega)]
        rw [search_relevant_documents, if_pos (Or.inr (Or.inl hids))]
        rcases List.append_eq_nil.mp hids with ⟨ha, hb⟩
        subst ha
        subst hb
        simp [searchCore,
          searchOneDb_raises env _ k.toNat bad idx md emsg hdb hraise]
      · rw [search_eq_core env q _ k hq (by simp) (by omega),
          search_eq_core env q _ k hq hids (by omega),
          searchCore_skip env _ ids₁ ids₂ bad k idx md emsg hdb hraise]

/-- Claim C4, counterexample: the claim says that when embedding the query
yields the all-zero fallback vector, search returns the empty list without
consulting any collection index.  Under an environment where every
embedding call raises (so the query vector is exactly the zero fallback)
and collection `d1` holds one searchable vector, search consults the
collection and returns its hit. -/
theorem claim_C4_counterexample :
    ChatBedrockTools.get_embeddings [pyStrip ("q")] envC4.bedrock =
      Except.ok [zeroVec] ∧
    search_relevant_documents envC4 ("q") [("d1")] 5 =
      [{ database_id := "d1", distance := (1 : ℚ) / 2, metadata := metaC4,
         chunk_text := metaC4.chunk_text, file_name := metaC4.file_name }] ∧
    search_relevant_documents envC4 ("q") [("d1")] 5 ≠ [] := by
  have hsearch : search_relevant_documents envC4 ("q") [("d1")] 5 =
      [{ database_id := "d1", distance := (1 : ℚ) / 2, metadata := metaC4,
         chunk_text := metaC4.chunk_text, file_name := metaC4.file_name }] := by
    rw [search_eq_core envC4 ("q") [("d1")] 5 (by decide) (by decide) (by decide),
      searchCore]
    have h1 : ([("d1")] : List String).flatMap
        (searchOneDb envC4 (ChatBedrockTools.embedOne envC4.bedrock (pyStrip ("q")))
          (Int.toNat 5)) =
        [{ database_id := "d1", distance := (1 : ℚ) / 2, metadata := metaC4,
           chunk_text := metaC4.chunk_text, file_name := metaC4.file_name }] := rfl
    rw [h1, List.mergeSort_singleton]
    rfl
  refine ⟨rfl, hsearch, ?_⟩
  rw [hsearch]
  simp

/-- Claim C4, amended: after the input guard, the code checks only that the
embedding list and its first vector are non-empty — a check the embedding
client can never trigger — so search always proceeds to the collection
scan with whatever vector came back; in particular, when the embedding
call fails (the all-zero fallback), the collections are consulted with the
zero vector rather than returning empty. -/
theorem claim_C4_amended :
    (∀ (env : ChatEnv) (q : String) (ids : List String) (k : Int),
        q ≠ "" → ids ≠ [] → 0 < k →
        search_relevant_documents env q ids k =
          searchCore env (ChatBedrockTools.embedOne env.bedrock (pyStrip q)) ids k) ∧
    (∀ (env : ChatEnv) (q : String) (ids : List String) (k : Int),
        q ≠ "" → ids ≠ [] → 0 < k →
        env.bedrock (pyTake (pyStrip q) 8000) = BedrockResp.raises →
        search_relevant_documents env q ids k = searchCore env zeroVec ids k) := by
  constructor
  · intro env q ids k hq hids hk
    exact search_eq_core env q ids k hq hids hk
  · intro env q ids k hq hids hk hraise
    rw [search_eq_core env q ids k hq hids hk]
    have hz : ChatBedrockTools.embedOne env.bedrock (pyStrip q) = zeroVec := by
      rw [ChatBedrockTools.embedOne]
      by_cases hb : pyStrip (pyStrip q) = ""
      · rw [if_pos hb]
      · rw [if_neg hb, hraise]
    rw [hz]

/-- Witness for claim C4 amended: the zero-fallback part at query `"q"`,
collection list `["d1"]`, topK 5, under the always-raising environment. -/
theorem claim_C4_amended_witness :
    search_relevant_documents envC4 ("q") [("d1")] 5 =
      searchCore envC4 zeroVec [("d1")] 5 :=
  claim_C4_amended.2 envC4 ("q") [("d1")] 5 (by decide) (by decide) (by decide) rfl

/-- Claim C5, confirmed: for every query, collection list and topK, the
search result has length at most topK (stated for positive topK) and is
sorted by non-decreasing distance; an empty collection list, an empty
query, or a non-positive topK gives the empty list with no error; and a
collection whose search raises is skipped without affecting the other
collections' results. -/
theorem claim_C5 :
    (∀ (env : ChatEnv) (q : String) (ids : List String) (k : Int), 0 < k →
        ((search_relevant_documents env q ids k).length : Int) ≤ k) ∧
    (∀ (env : ChatEnv) (q : String) (ids : List String) (k : Int),
        List.Pairwise (fun a b => a.distance ≤ b.distance)
          (search_relevant_documents env q ids k)) ∧
    (∀ (env : ChatEnv) (q : String) (ids : List String) (k : Int),
        search_relevant_documents env q [] k = [] ∧
        search_relevant_documents env ("") ids k = [] ∧
        (k ≤ 0 → search_relevant_documents env q ids k = [])) ∧
    (∀ (env : ChatEnv) (q : String) (ids₁ ids₂ : List String) (bad : String)
        (k : Int) (idx : FaissIndex) (md : List ChunkMeta) (emsg : String),
        env.db (pyStrip bad) = some (idx, md) →
        (∀ qv kk, idx.search qv kk = Except.error emsg) →
        search_relevant_documents env q (ids₁ ++ bad :: ids₂) k =
          search_relevant_documents env q (ids₁ ++ ids₂) k) := by
  refine ⟨fun env q ids k hk => search_len env q ids k hk,
    fun env q ids k => search_sorted env q ids k,
    fun env q ids k => ⟨?_, ?_, fun hk => ?_⟩,
    fun env q ids₁ ids₂ bad k idx md emsg hdb hraise =>
      search_skip env q ids₁ ids₂ bad k idx md emsg hdb hraise⟩
  · rw [search_relevant_documents, if_pos (Or.inr (Or.inl rfl))]
  · rw [search_relevant_documents, if_pos (Or.inl rfl)]
  · rw [search_relevant_documents, if_pos (Or.inr (Or.inr hk))]

/-- Witness for claim C5 at query `"q"`, collections `["a", "bad"]`
(collection `a` healthy with distances 1/2 and 3/4, collection `bad`
raising during search) and topK 3. -/
theorem claim_C5_witness :
    ((search_relevant_documents envC5 ("q") [("a"), ("bad")] 3).length : Int) ≤ 3 ∧
    List.Pairwise (fun a b => a.distance ≤ b.distance)
      (search_relevant_documents envC5 ("q") [("a"), ("bad")] 3) ∧
    search_relevant_documents envC5 ("q") [] 3 = [] ∧
    search_relevant_documents envC5 ("q") [("a"), ("bad")] 3 =
      search_relevant_documents envC5 ("q") [("a")] 3 :=
  ⟨claim_C5.1 envC5 ("q") [("a"), ("bad")] 3 (by decide),
   claim_C5.2.1 envC5 ("q") [("a"), ("bad")] 3,
   (claim_C5.2.2.1 envC5 ("q") [] 3).1,
   claim_C5.2.2.2 envC5 ("q") [("a")] [] ("bad") 3 idxBad []
     ("faiss search failed") rfl (fun qv kk => rfl)⟩



/-! #### Lemmas about the tool sandbox -/

theorem installLoop_mem_fail (pip : String → ChatBedrockTools.PipOutcome) :
    ∀ packages p, p ∈ packages → pip p ≠ ChatBedrockTools.PipOutcome.success →
      ChatBedrockTools.installLoop pip packages = false := by
  intro packages
  induction packages with
  | nil =>
    intro p hp
    cases hp
  | cons q rest ih =>
    intro p hp hfail
    rw [ChatBedrockTools.installLoop]
    cases hq : pip q with
    | success =>
      rcases List.mem_cons.mp hp with h | h
      · subst h
        exact absurd hq hfail
      · exact ih p h hfail
    | exitNonzero => rfl
    | timeout => rfl

/-- Claim C1, counterexample: the claim says the tool execution namespace
contains only the safe allow-list and the injected input, with no
filesystem module, no blob-store or model client handles and no process
primitives.  The chat executor's namespace is a copy of the module globals
plus the injected utilities, and it contains `os`, `tempfile`,
`s3_client`, `bedrock_client` and `dynamodb`; the test executor's
namespace contains `os` and the full `__builtins__`. -/
theorem claim_C1_counterexample :
    hasKey ChatBedrockTools.execution_globals ("os") = true ∧
    hasKey ChatBedrockTools.execution_globals ("tempfile") = true ∧
    hasKey ChatBedrockTools.execution_globals ("s3_client") = true ∧
    hasKey ChatBedrockTools.execution_globals ("bedrock_client") = true ∧
    hasKey ChatBedrockTools.execution_globals ("dynamodb") = true ∧
    hasKey TestTool.execution_globals ("os") = true ∧
    hasKey TestTool.execution_globals ("__builtins__") = true := by
  decide

/-- Claim C1, amended: the chat executor's namespace is the module's
global namespace updated with `json`, `datetime`, `logger`, `os` and
`tempfile` — all five keys are already module globals, so the key set is
exactly the module's, including the `os` and `tempfile` modules and the
S3, Bedrock and DynamoDB client handles; the test executor's namespace is
exactly `{json, datetime, logger, os, tempfile, __builtins__}`.  Neither
is limited to a safe allow-list plus the input. -/
theorem claim_C1_amended :
    ChatBedrockTools.injectedUtilities.all
      (fun kv => hasKey ChatBedrockTools.execution_globals kv.1) = true ∧
    ChatBedrockTools.execution_globals.map Prod.fst =
      ChatBedrockTools.moduleGlobals.map Prod.fst ∧
    hasKey ChatBedrockTools.execution_globals ("os") = true ∧
    hasKey ChatBedrockTools.execution_globals ("tempfile") = true ∧
    hasKey ChatBedrockTools.execution_globals ("s3_client") = true ∧
    hasKey ChatBedrockTools.execution_globals ("bedrock_client") = true ∧
    hasKey ChatBedrockTools.execution_globals ("dynamodb") = true ∧
    TestTool.execution_globals.map Prod.fst =
      [("json"), ("datetime"), ("logger"), ("os"), ("tempfile"), ("__builtins__")] := by
  decide

/-- Claim C2, counterexample: the claim says a tool whose code is only the
bare script `result = {"value": input["x"] * 2}`, invoked with
`{"x": 21}`, yields a success envelope containing `{"value": 42}`.  In
execute-tool the code is first executed as a module import with no input
fields, where `input` resolves to the builtin and subscripting it raises,
so the invocation is a 500 failure envelope, not a success. -/
theorem claim_C2_counterexample :
    ExecuteTool.download_and_execute_tool exampleBareScript
      [(("x"), PyVal.vint 21)] ExecuteTool.InstallOutcome.ok =
      Except.error ("TypeError: object is not subscriptable") ∧
    ExecuteTool.handler ("double") exampleBareScript [(("x"), PyVal.vint 21)]
      ExecuteTool.InstallOutcome.ok =
      PyVal.vdict [(("statusCode"), PyVal.vint 500),
        (("error"), PyVal.vstr ("TypeError: object is not subscriptable")),
        (("success"), PyVal.vbool false)] :=
  ⟨rfl, rfl⟩

/-- Claim C2, amended: in execute-tool, a tool whose code defines no
handler/main/execute is executed once as a module import without the input
fields — if that raises (as any script reading its inputs does), the
invocation fails with that exception; if it succeeds, the code runs again
with the input fields injected directly as variables, a `result` variable
left in the namespace becomes the output (normalized into the
`{"statusCode": 200, "body": ...}` envelope) and its absence is an
implicit success with the fixed message.  In the chat executor there is no
bare-script convention at all: code that leaves no `handler` binding gets
the handler-required failure envelope. -/
theorem claim_C2_amended :
    (∀ code params install msg,
        execStmts [] code ExecuteTool.moduleInitNs = Except.error msg →
        ExecuteTool.download_and_execute_tool code params install =
          Except.error msg) ∧
    (∀ code params install ns ns2 v,
        execStmts [] code ExecuteTool.moduleInitNs = Except.ok ns →
        hasKey ns ("handler") = false → hasKey ns ("main") = false →
        hasKey ns ("execute") = false →
        execStmts [] code
          (dictUpdate [(("__name__"), PyVal.vstr ("__main__"))] params) =
          Except.ok ns2 →
        dictGet ns2 ("result") = some v →
        ExecuteTool.download_and_execute_tool code params install =
          Except.ok (ExecuteTool.normalizeResult v)) ∧
    (∀ code params install ns ns2,
        execStmts [] code ExecuteTool.moduleInitNs = Except.ok ns →
        hasKey ns ("handler") = false → hasKey ns ("main") = false →
        hasKey ns ("execute") = false →
        execStmts [] code
          (dictUpdate [(("__name__"), PyVal.vstr ("__main__"))] params) =
          Except.ok ns2 →
        dictGet ns2 ("result") = none →
        ExecuteTool.download_and_execute_tool code params install =
          Except.ok (ExecuteTool.normalizeResult
            (PyVal.vstr ("Tool executed successfully")))) ∧
    (∀ code tool_name requirements pip tool_input local_vars,
        ChatBedrockTools.install_tool_requirements requirements pip = true →
        execStmts ChatBedrockTools.execution_globals code [] =
          Except.ok local_vars →
        hasKey local_vars ("handler") = false →
        ChatBedrockTools.execute_custom_tool (some code) tool_name requirements
          pip tool_input =
          PyVal.vdict [(("error"), PyVal.vstr handlerRequiredMsg),
            (("success"), PyVal.vbool false)]) := by
  refine ⟨?_, ?_, ?_, ?_⟩
  · intro code params install msg h
    rw [ExecuteTool.download_and_execute_tool, h]
  · intro code params install ns ns2 v h1 h2 h3 h4 h5 h6
    rw [ExecuteTool.download_and_execute_tool, h1]
    dsimp only
    rw [if_neg (by simp [h2]), if_neg (by simp [h3]), if_neg (by simp [h4]), h5]
    dsimp only
    rw [h6]
  · intro code params install ns ns2 h1 h2 h3 h4 h5 h6
    rw [ExecuteTool.download_and_execute_tool, h1]
    dsimp only
    rw [if_neg (by simp [h2]), if_neg (by simp [h3]), if_neg (by simp [h4]), h5]
    dsimp only
    rw [h6]
  · intro code tool_name requirements pip tool_input local_vars h1 h2 h3
    rw [ChatBedrockTools.execute_custom_tool]
    rw [if_neg (by simp [h1]), h2]
    dsimp only
    have h4 : dictGet local_vars ("handler") = none := by
      have := h3
      rw [hasKey] at this
      exact Option.not_isSome_iff_eq_none.mp (by simp [this])
    rw [h4]

/-- Witness for claim C2 amended: the bare script `result = 5` with no
input fields runs the module import successfully, defines no dispatch
function, leaves `result` in the namespace and yields the normalized
success envelope. -/
theorem claim_C2_amended_witness :
    ExecuteTool.download_and_execute_tool resultFiveScript []
      ExecuteTool.InstallOutcome.ok =
      Except.ok (ExecuteTool.normalizeResult (PyVal.vint 5)) :=
  claim_C2_amended.2.1 resultFiveScript [] ExecuteTool.InstallOutcome.ok
    [(("__name__"), PyVal.vstr ("custom_tool")), (("result"), PyVal.vint 5)]
    [(("__name__"), PyVal.vstr ("__main__")), (("result"), PyVal.vint 5)]
    (PyVal.vint 5) rfl rfl rfl rfl rfl rfl

/-- Claim C3, counterexample: the claim says a failed dependency install
aborts every tool invocation with a dependency-install failure envelope
before the tool code is executed.  In execute-tool a failed install is
only logged ("continuing anyway"): with every pip call failing, the bare
script `result = 5` still executes and the invocation succeeds. -/
theorem claim_C3_counterexample :
    ChatBedrockTools.install_tool_requirements ("numpy") pipAlwaysFails = false ∧
    ExecuteTool.download_and_execute_tool resultFiveScript []
      ExecuteTool.InstallOutcome.failed =
      Except.ok (PyVal.vdict [(("statusCode"), PyVal.vint 200),
        (("body"), PyVal.vint 5)]) := by
  refine ⟨by decide, rfl⟩

/-- Claim C3, amended: in the chat executor (and the test executor, which
shares the same install routine), any single dependency failure (non-zero
exit or timeout of the 30-second per-package budget) makes the install
fail, which aborts the invocation with the install-failure envelope before
and independently of the tool code; an empty or blank requirements string
is a no-op success.  In execute-tool, the install outcome is ignored and
the invocation proceeds to execute the tool anyway. -/
theorem claim_C3_amended :
    (∀ requirements pip p, pyStrip requirements ≠ "" →
        p ∈ ChatBedrockTools.parseRequirements requirements →
        pip p ≠ ChatBedrockTools.PipOutcome.success →
        ChatBedrockTools.install_tool_requirements requirements pip = false) ∧
    (∀ requirements pip, pyStrip requirements = "" →
        ChatBedrockTools.install_tool_requirements requirements pip = true) ∧
    (∀ code₁ code₂ tool_name requirements pip input₁ input₂,
        ChatBedrockTools.install_tool_requirements requirements pip = false →
        ChatBedrockTools.execute_custom_tool (some code₁) tool_name requirements
            pip input₁ =
          PyVal.vdict [(("error"),
            PyVal.vstr ("Failed to install requirements for tool: " ++ tool_name)),
            (("success"), PyVal.vbool false)] ∧
        ChatBedrockTools.execute_custom_tool (some code₁) tool_name requirements
            pip input₁ =
          ChatBedrockTools.execute_custom_tool (some code₂) tool_name requirements
            pip input₂) ∧
    (∀ code params,
        ExecuteTool.download_and_execute_tool code params
          ExecuteTool.InstallOutcome.failed =
        ExecuteTool.download_and_execute_tool code params
          ExecuteTool.InstallOutcome.ok) := by
  refine ⟨?_, ?_, ?_, fun code params => rfl⟩
  · intro requirements pip p hblank hp hfail
    rw [ChatBedrockTools.install_tool_requirements, if_neg hblank]
    exact installLoop_mem_fail pip _ p hp hfail
  · intro requirements pip hblank
    rw [ChatBedrockTools.install_tool_requirements, if_pos hblank]
  · intro code₁ code₂ tool_name requirements pip input₁ input₂ hfail
    constructor
    · rw [ChatBedrockTools.execute_custom_tool]
      rw [if_pos hfail]
    · rw [ChatBedrockTools.execute_custom_tool, ChatBedrockTools.execute_custom_tool]
      rw [if_pos hfail, if_pos hfail]

/-- Witness for claim C3 amended: requirements `"numpy"` with every pip
call failing (install returns false and the chat invocation yields the
install-failure envelope independently of the code), blank requirements
`"  "` (no-op success), and the execute-tool invocation of `result = 5`
giving the same result under a failed and a successful install. -/
theorem claim_C3_amended_witness :
    ChatBedrockTools.install_tool_requirements ("numpy") pipAlwaysFails = false ∧
    ChatBedrockTools.install_tool_requirements ("  ") pipAlwaysFails = true ∧
    (ChatBedrockTools.execute_custom_tool (some exampleBareScript) ("t")
        ("numpy") pipAlwaysFails [] =
      PyVal.vdict [(("error"),
        PyVal.vstr ("Failed to install requirements for tool: " ++ ("t"))),
        (("success"), PyVal.vbool false)]) ∧
    ExecuteTool.download_and_execute_tool resultFiveScript []
      ExecuteTool.InstallOutcome.failed =
    ExecuteTool.download_and_execute_tool resultFiveScript []
      ExecuteTool.InstallOutcome.ok :=
  ⟨claim_C3_amended.1 ("numpy") pipAlwaysFails ("numpy") (by decide) (by decide)
      (by decide),
   claim_C3_amended.2.1 ("  ") pipAlwaysFails (by decide),
   (claim_C3_amended.2.2.1 exampleBareScript exampleBareScript ("t") ("numpy")
      pipAlwaysFails [] [] (claim_C3_amended.1 ("numpy") pipAlwaysFails ("numpy")
        (by decide) (by decide) (by decide))).1,
   claim_C3_amended.2.2.2 resultFiveScript []⟩


end Ainp

